import Mathlib

/-!
Shallow embedding of the telegram music bot (src/bot.py, src/music_bot.py).

The code under `src/music_bot.py` is the authority: the definitions below
translate its functions one by one.  External effects (the yt-dlp engine,
the Telegram transport, the filesystem) are made explicit parameters:
the outcome of an engine call is a value of an outcome type, the
filesystem is the list of existing paths, and outbound transport calls
are recorded as response values.
-/

namespace MusicBot

/-- `RESULTS_PER_PAGE = 10` (music_bot.py line 18). -/
def RESULTS_PER_PAGE : Nat := 10

/-! ### Tracks (the dicts built by `search_youtube`, lines 77-85) -/

/-- One track dict as assembled in `search_youtube`:
`{'id', 'title', 'artist', 'full_name', 'source', 'duration', 'video_id'}`.
`duration` is `Option Nat`: `none` models Python `None` (possible for some
videos), `some n` a numeric duration; `entry.get('duration', 0)` folds the
absent-key default into `some 0`.  Both `None` and `0` are falsy in Python. -/
structure Track where
  id : String
  title : String
  artist : String
  full_name : String
  source : String
  duration : Option Nat
  video_id : String
deriving Repr, DecidableEq

/-- `context.user_data` as used by the handlers: the `search_results` key
(absent key reads as `[]` via `.get('search_results', [])`) and the `page`
key (absent reads as `0`).  `page` is `Int` because `button_handler` stores
whatever `int(data.split('_')[1])` produced, with no validation. -/
structure UserData where
  search_results : List Track
  page : Int
deriving Repr, DecidableEq

/-! ### `format_duration` (lines 24-28)

`str(timedelta(seconds=n))` renders as `"H:MM:SS"` (hours without leading
zero) for durations under a day, and `"D day(s), H:MM:SS"` from one day up.
`.lstrip("0:")` strips the *character set* `{'0', ':'}` from the left. -/

/-- Two-digit zero-padded decimal, as `timedelta.__str__` renders minutes
and seconds. -/
def twoDigits (n : Nat) : String :=
  if n < 10 then "0" ++ toString n else toString n

/-- `str(datetime.timedelta(seconds := s))` for a non-negative whole number
of seconds. -/
def timedeltaStr (s : Nat) : String :=
  let d := s / 86400
  let r := s % 86400
  let base := toString (r / 3600) ++ ":" ++ twoDigits (r % 3600 / 60) ++ ":" ++ twoDigits (r % 60)
  if d = 0 then base
  else if d = 1 then toString d ++ " day, " ++ base
  else toString d ++ " days, " ++ base

/-- Python `str.lstrip(cutset)`: drop leading characters as long as they
belong to the cut set. -/
def pyLstrip (cutset : List Char) : List Char → List Char
  | [] => []
  | c :: cs => if c ∈ cutset then pyLstrip cutset cs else c :: cs

/-- `format_duration(seconds)` (lines 24-28).  `if not seconds` is true for
both Python `None` and `0`. -/
def format_duration : Option Nat → String
  | none => "??:??"
  | some s =>
    if s = 0 then "??:??"
    else String.mk (pyLstrip ['0', ':'] (timedeltaStr s).data)

/-! ### `clean_filename` (lines 30-32) -/

/-- The character class of `re.sub(r'[\\/*?:"<>|]', "", title)`. -/
def bannedChar (c : Char) : Bool :=
  c ∈ ['\\', '/', '*', '?', ':', '\"', '<', '>', '|']

/-- `re.sub(cls, "", s)`: replacing every occurrence of a single-character
class by the empty string deletes exactly the matching characters. -/
def clean_filename (s : List Char) : List Char :=
  s.filter (fun c => !bannedChar c)

/-! ### Python decimal strings (`str(i)` / `int(s)`), `str.split`, `str.startswith`

Callback data is built with f-strings (`f"page_{...}"`, `f"dl_{...}"`) and
parsed with `int(data.split('_')[1])`. -/

/-- The decimal digit character for `d < 10`. -/
def dchar (d : Nat) : Char := Char.ofNat (48 + d)

/-- Fuel-driven decimal rendering of a positive natural, most significant
digit first (`fuel ≥ n` suffices). -/
def toDecAux : Nat → Nat → List Char → List Char
  | 0, _, acc => acc
  | fuel + 1, n, acc =>
    if n = 0 then acc
    else toDecAux fuel (n / 10) (dchar (n % 10) :: acc)

/-- Python `str(n)` for a natural number. -/
def natToDecStr (n : Nat) : List Char :=
  if n = 0 then ['0'] else toDecAux n n []

/-- Python `str(i)` for an integer. -/
def pyStrInt (i : Int) : List Char :=
  if i < 0 then '-' :: natToDecStr i.natAbs else natToDecStr i.toNat

/-- Numeric value of a digit character. -/
def dval (c : Char) : Nat := c.toNat - 48

/-- Python `int(s)` on an unsigned decimal digit string. -/
def decStrToNat (cs : List Char) : Nat :=
  Nat.ofDigits 10 ((cs.map dval).reverse)

/-- Python `int(s)` on an optionally `-`-signed decimal string. -/
def pyIntOfStr (cs : List Char) : Int :=
  if cs.headD ' ' = '-' then -(decStrToNat (cs.drop 1) : Int)
  else (decStrToNat cs : Int)

/-- Python `s.split(sep)` for a one-character separator. -/
def splitOnChar (sep : Char) : List Char → List (List Char)
  | [] => [[]]
  | c :: cs =>
    match splitOnChar sep cs with
    | [] => [[]]
    | w :: ws => if c = sep then [] :: w :: ws else (c :: w) :: ws

/-- Python `s.startswith(pre)`. -/
def pyStartswith : List Char → List Char → Bool
  | [], _ => true
  | _ :: _, [] => false
  | p :: ps, c :: cs => p == c && pyStartswith ps cs

/-! ### Callback data (lines 181, 187, 189, 206-207, 211-212) -/

/-- `f"dl_{i-1}"` where `i-1` is the 0-based absolute index of the track in
the full stored result list (line 181). -/
def encode_dl (r : Int) : List Char := 'd' :: 'l' :: '_' :: pyStrInt r

/-- `f"page_{p}"` for a target page index (lines 187 and 189 build it with
`page-1` / `page+1`). -/
def encode_page (p : Int) : List Char :=
  'p' :: 'a' :: 'g' :: 'e' :: '_' :: pyStrInt p

/-- `int(data.split('_')[1])` as `button_handler` decodes both callback
shapes (lines 207 and 212). -/
def decode_cb_index (data : List Char) : Int :=
  pyIntOfStr ((splitOnChar '_' data).getD 1 [])

/-! ### `search_youtube` (lines 35-90) -/

/-- One entry dict of `info['entries']`, with the `entry.get(key, default)`
lookups already resolved: `title`/`channel`/`uploader` hold the string the
`get` produced (absent keys fold into the defaults `'Unknown Title'` /
`'Unknown Artist'`; a present-but-`None` or empty value is the empty string,
which is falsy like `None` for the `if not channel` test), and `duration`
keeps `entry.get('duration', 0)` (`none` models Python `None`). -/
structure RawEntry where
  id : String
  title : String
  channel : String
  uploader : String
  duration : Option Nat
deriving Repr, DecidableEq

/-- The track dict built from one entry (lines 66-85). -/
def mkTrack (e : RawEntry) : Track :=
  let channel := if e.channel = "" then e.uploader else e.channel
  { id := e.id
    title := e.title
    artist := channel
    full_name := channel ++ " - " ++ e.title
    source := "youtube"
    duration := e.duration
    video_id := e.id }

/-- Outcome of `ydl.extract_info(search_query, download := False)`:
either it returns `info` with an `entries` list (whose elements can be
falsy and are skipped), or `info` is falsy / has no `entries` key, or an
exception escapes it (network/parse failure). -/
inductive ExtractResult
  | ok (entries : List (Option RawEntry))
  | noEntries
  | raised
deriving Repr, DecidableEq

/-- `search_youtube` (lines 35-90): builds the track list from the entries;
`if not info or 'entries' not in info: return []` (line 58); the
`except Exception` handler logs and returns `[]` (lines 88-90). -/
def search_youtube (res : ExtractResult) : List Track :=
  match res with
  | .ok entries => entries.filterMap (fun e => e.map mkTrack)
  | .noEntries => []
  | .raised => []

/-! ### `search_command` (lines 137-158), state update part -/

/-- The session mutation of `search_command` once `search_youtube` returned
`tracks`: on an empty list the handler reports "nothing found" and returns
with the session untouched (lines 148-150); otherwise it stores the new
results and resets the page (lines 152-153). -/
def search_command (ud : UserData) (tracks : List Track) : UserData :=
  if tracks.isEmpty then ud
  else { search_results := tracks, page := 0 }

/-! ### `send_results_page` (lines 160-198) -/

/-- Clamp one slice bound the way Python list slicing does. -/
def pySliceClamp (n : Nat) (i : Int) : Nat :=
  if i < 0 then (i + n).toNat else min i.toNat n

/-- Python `l[a:b]`. -/
def pySlice (l : List Track) (a b : Int) : List Track :=
  (l.take (pySliceClamp l.length b)).drop (pySliceClamp l.length a)

/-- The page count as the handler renders it: `(len(tracks)-1)//per_page + 1`
(line 172; used with a non-empty track list). -/
def pageCount_displayed (n : Nat) : Nat := (n - 1) / RESULTS_PER_PAGE + 1

/-- What one call of `send_results_page` renders: the sliced items, the
download callback datum of each item (`f"dl_{i-1}"`, line 181), and the two
navigation affordances (`page > 0`, line 186; `end_idx < len(tracks)`,
line 188). -/
structure PageView where
  items : List Track
  dlData : List (List Char)
  hasPrev : Bool
  hasNext : Bool
deriving Repr, DecidableEq

/-- `send_results_page` (lines 160-198).  With an empty track list it
returns before sending anything (lines 165-166): that is the `none` case.
Otherwise it edits/sends a message rendered from the returned view. -/
def send_results_page (tracks : List Track) (page : Int) : Option PageView :=
  if tracks.isEmpty then none
  else
    let start := page * (RESULTS_PER_PAGE : Int)
    let endIdx := min (start + (RESULTS_PER_PAGE : Int)) (tracks.length : Int)
    let page_tracks := pySlice tracks start endIdx
    some { items := page_tracks
           dlData := (List.range page_tracks.length).map
             (fun j => encode_dl (start + (j : Int)))
           hasPrev := decide (0 < page)
           hasNext := decide (endIdx < (tracks.length : Int)) }

/-! ### `button_handler` (lines 200-239), dispatch part -/

/-- The externally visible outcome of one `button_handler` dispatch:
either nothing beyond the callback acknowledgement (`silent`: the page
branch with an empty stored result list returns without a message, and an
unrecognized prefix falls through both branches, `ignored`), or the edited
results page, or the "track not found" error message, or entry into the
download pipeline with the resolved track. -/
inductive RouterResponse
  | silent
  | resultsPage (v : PageView)
  | trackNotFound
  | startDownload (t : Track)
  | ignored
deriving Repr, DecidableEq

/-- `button_handler` (lines 200-218), up to the point where a download
starts: the page branch stores the decoded target page unconditionally
(line 208) and re-renders; the download branch bounds-checks the decoded
index against the stored results (line 214) and resolves the track
(line 218). -/
def button_handler (ud : UserData) (data : List Char) :
    UserData × RouterResponse :=
  if pyStartswith ['p', 'a', 'g', 'e', '_'] data then
    ({ ud with page := decode_cb_index data },
      match send_results_page ud.search_results (decode_cb_index data) with
      | none => .silent
      | some v => .resultsPage v)
  else if pyStartswith ['d', 'l', '_'] data then
    if h : decode_cb_index data < 0
        ∨ (ud.search_results.length : Int) ≤ decode_cb_index data then
      (ud, .trackNotFound)
    else
      (ud, .startDownload
        (ud.search_results.get ⟨(decode_cb_index data).toNat, by omega⟩))
  else (ud, .ignored)

/-! ### The download pipeline (lines 93-126 and 218-239)

The filesystem is the list of existing paths; the engine call outcome and
the transport delivery outcome are explicit parameters. -/

/-- The set of existing files. -/
abbrev FS := List String

/-- `os.path.exists`. -/
def FS.existsFile (fs : FS) (p : String) : Bool := fs.contains p

/-- Outcome of `ydl.extract_info(url, download := True)` for the job's
expected mp3 path (`output_template.replace('.%(ext)s', '.mp3')`). -/
inductive EngineResult
  | created
  | noFile
  | raised
deriving Repr, DecidableEq

/-- `download_track_as_mp3` (lines 93-126): on a truthy `info` it answers
the expected mp3 path if that file exists; on a falsy `info`, a missing
file, or an exception (caught and logged, lines 124-125) it answers `None`.
It never deletes anything itself. -/
def download_track_as_mp3 (fs : FS) (eng : EngineResult) (mp3Path : String) :
    Option String × FS :=
  match eng with
  | .created =>
    let fs2 := mp3Path :: fs
    if FS.existsFile fs2 mp3Path then (some mp3Path, fs2) else (none, fs2)
  | .noFile => (none, fs)
  | .raised => (none, fs)

/-- Terminal state of one download job as `button_handler` drives it. -/
inductive DlStatus
  | delivered
  | fetchFailed
  | deliveryFailed
deriving Repr, DecidableEq

/-- The download part of `button_handler` (lines 221-239): fetch, then if a
path came back and exists, hand the file to `reply_audio`; only when that
delivery returns normally does `os.remove(file_path)` run (line 233) — a
delivery exception jumps to the `except` branch (lines 237-239), which
edits the status message and deletes nothing. -/
def button_handler_download (fs : FS) (eng : EngineResult) (mp3Path : String)
    (deliveryOk : Bool) : FS × DlStatus :=
  let fetched := download_track_as_mp3 fs eng mp3Path
  match fetched.1 with
  | some p =>
    if FS.existsFile fetched.2 p then
      if deliveryOk then ((fetched.2).erase p, .delivered)
      else (fetched.2, .deliveryFailed)
    else (fetched.2, .fetchFailed)
  | none => (fetched.2, .fetchFailed)

/-! ### Concrete sample data for the counterexamples and witnesses -/

/-- A representative track value. -/
def sampleTrack : Track :=
  { id := "vid0", title := "Believer", artist := "Imagine Dragons"
    full_name := "Imagine Dragons - Believer", source := "youtube"
    duration := some 204, video_id := "vid0" }

/-- A 20-track result set, as in the spec's scenarios. -/
def tracks20 : List Track := List.replicate 20 sampleTrack

end MusicBot

namespace MusicBot

/-- Helper: counting in a filtered list. -/
theorem count_filter_eq (p : Char → Bool) (c : Char) (hp : p c = true) (s : List Char) :
    (s.filter p).count c = s.count c := by
  induction s with
  | nil => rfl
  | cons a s ih =>
    by_cases ha : p a
    · simp [List.filter_cons, ha, List.count_cons, ih]
    · have hac : a ≠ c := by rintro rfl; rw [hp] at ha; exact ha rfl
      simp [List.filter_cons, ha, List.count_cons, ih, hac]

/-! ### Decimal round-trip lemmas -/

theorem dval_dchar (d : Nat) (h : d < 10) : dval (dchar d) = d := by
  interval_cases d <;> rfl

theorem dchar_ne_underscore (d : Nat) (h : d < 10) : dchar d ≠ '_' := by
  interval_cases d <;> decide

theorem dchar_ne_dash (d : Nat) (h : d < 10) : dchar d ≠ '-' := by
  interval_cases d <;> decide

theorem toDecAux_eq (fuel : Nat) :
    ∀ n acc, n ≤ fuel →
      toDecAux fuel n acc = ((Nat.digits 10 n).reverse.map dchar) ++ acc := by
  induction fuel with
  | zero =>
    intro n acc h
    interval_cases n
    simp [toDecAux]
  | succ fuel ih =>
    intro n acc h
    by_cases hn : n = 0
    · subst hn; simp [toDecAux]
    · rw [toDecAux, if_neg hn,
        ih (n / 10) _ (by
          have : n / 10 < n := Nat.div_lt_self (Nat.pos_of_ne_zero hn) (by norm_num)
          omega),
        Nat.digits_def' (by norm_num : (1 : ℕ) < 10) (Nat.pos_of_ne_zero hn)]
      simp [List.map_append]

theorem natToDecStr_eq (n : Nat) :
    natToDecStr n = if n = 0 then ['0'] else (Nat.digits 10 n).reverse.map dchar := by
  unfold natToDecStr
  by_cases hn : n = 0
  · simp [hn]
  · simp [hn, toDecAux_eq n n [] le_rfl]

theorem mem_natToDecStr (n : Nat) (c : Char) (hc : c ∈ natToDecStr n) :
    ∃ d, d < 10 ∧ c = dchar d := by
  rw [natToDecStr_eq] at hc
  by_cases hn : n = 0
  · rw [if_pos hn] at hc
    refine ⟨0, by norm_num, ?_⟩
    simp at hc
    rw [hc]; rfl
  · rw [if_neg hn] at hc
    simp only [List.mem_map, List.mem_reverse] at hc
    obtain ⟨d, hd, rfl⟩ := hc
    exact ⟨d, Nat.digits_lt_base (by norm_num) hd, rfl⟩

theorem underscore_not_mem_natToDecStr (n : Nat) : '_' ∉ natToDecStr n := by
  intro h
  obtain ⟨d, hd, hc⟩ := mem_natToDecStr n _ h
  exact dchar_ne_underscore d hd hc.symm

theorem underscore_not_mem_pyStrInt (i : Int) : '_' ∉ pyStrInt i := by
  unfold pyStrInt
  split
  · intro h
    rcases List.mem_cons.mp h with h1 | h1
    · exact absurd h1 (by decide)
    · exact underscore_not_mem_natToDecStr _ h1
  · exact underscore_not_mem_natToDecStr _

theorem natToDecStr_ne_nil (n : Nat) : natToDecStr n ≠ [] := by
  rw [natToDecStr_eq]
  by_cases hn : n = 0
  · simp [hn]
  · simp [hn, Nat.digits_ne_nil_iff_ne_zero.mpr hn]

theorem headD_natToDecStr_ne_dash (n : Nat) : (natToDecStr n).headD ' ' ≠ '-' := by
  rcases he : natToDecStr n with _ | ⟨c, cs⟩
  · exact absurd he (natToDecStr_ne_nil n)
  · have hc : c ∈ natToDecStr n := by rw [he]; exact List.mem_cons_self _ _
    obtain ⟨d, hd, rfl⟩ := mem_natToDecStr n c hc
    simpa using dchar_ne_dash d hd

theorem map_dval_dchar (l : List Nat) (h : ∀ d ∈ l, d < 10) :
    l.map (fun d => dval (dchar d)) = l := by
  induction l with
  | nil => rfl
  | cons a l ih =>
    have ha := dval_dchar a (h a (by simp))
    simp only [List.map_cons, ha, List.cons.injEq, true_and]
    exact ih (fun d hd => h d (by simp [hd]))

theorem decStrToNat_natToDecStr (n : Nat) : decStrToNat (natToDecStr n) = n := by
  rw [natToDecStr_eq]
  by_cases hn : n = 0
  · rw [if_pos hn, hn]; rfl
  · rw [if_neg hn]
    unfold decStrToNat
    rw [List.map_map, List.map_reverse, List.reverse_reverse]
    have : (Nat.digits 10 n).map (dval ∘ dchar) = Nat.digits 10 n := by
      have := map_dval_dchar (Nat.digits 10 n)
        (fun d hd => Nat.digits_lt_base (by norm_num) hd)
      simpa [Function.comp] using this
    rw [this, Nat.ofDigits_digits]

theorem pyIntOfStr_pyStrInt (i : Int) : pyIntOfStr (pyStrInt i) = i := by
  unfold pyStrInt
  by_cases hi : i < 0
  · rw [if_pos hi]
    unfold pyIntOfStr
    rw [if_pos (show ('-' :: natToDecStr i.natAbs).headD ' ' = '-' from rfl)]
    rw [show ('-' :: natToDecStr i.natAbs).drop 1 = natToDecStr i.natAbs from rfl]
    rw [decStrToNat_natToDecStr]
    omega
  · rw [if_neg hi]
    unfold pyIntOfStr
    rw [if_neg (headD_natToDecStr_ne_dash _), decStrToNat_natToDecStr]
    omega

/-! ### `split` / `startswith` lemmas -/

theorem splitOnChar_not_mem (sep : Char) (cs : List Char) (h : sep ∉ cs) :
    splitOnChar sep cs = [cs] := by
  induction cs with
  | nil => rfl
  | cons c cs ih =>
    have hcs : sep ∉ cs := fun hm => h (List.mem_cons_of_mem c hm)
    have hcne : c ≠ sep := by
      intro hc; subst hc; exact h (List.mem_cons_self _ _)
    simp only [splitOnChar, ih hcs, if_neg hcne]

theorem splitOnChar_append (sep : Char) (pre rest : List Char)
    (h1 : sep ∉ pre) (h2 : sep ∉ rest) :
    splitOnChar sep (pre ++ sep :: rest) = [pre, rest] := by
  induction pre with
  | nil =>
    simp [List.nil_append, splitOnChar, splitOnChar_not_mem sep rest h2]
  | cons p ps ih =>
    have hps : sep ∉ ps := fun hm => h1 (List.mem_cons_of_mem _ hm)
    have hpne : p ≠ sep := by
      intro hp; subst hp; exact h1 (List.mem_cons_self _ _)
    simp only [List.cons_append, splitOnChar, List.append_eq, ih hps, if_neg hpne]

theorem pyStartswith_page_encode (xs : List Char) :
    pyStartswith ['p', 'a', 'g', 'e', '_'] ('p' :: 'a' :: 'g' :: 'e' :: '_' :: xs) = true :=
  rfl

theorem pyStartswith_page_on_dl (xs : List Char) :
    pyStartswith ['p', 'a', 'g', 'e', '_'] ('d' :: 'l' :: '_' :: xs) = false :=
  rfl

theorem pyStartswith_dl_encode (xs : List Char) :
    pyStartswith ['d', 'l', '_'] ('d' :: 'l' :: '_' :: xs) = true :=
  rfl

/-! ### Callback decode lemmas -/

theorem decode_encode_dl (i : Int) : decode_cb_index (encode_dl i) = i := by
  unfold decode_cb_index encode_dl
  have h := splitOnChar_append '_' ['d', 'l'] (pyStrInt i) (by decide)
    (underscore_not_mem_pyStrInt i)
  simp only [List.cons_append, List.nil_append] at h
  rw [h]
  simpa using pyIntOfStr_pyStrInt i

theorem decode_encode_page (i : Int) : decode_cb_index (encode_page i) = i := by
  unfold decode_cb_index encode_page
  have h := splitOnChar_append '_' ['p', 'a', 'g', 'e'] (pyStrInt i) (by decide)
    (underscore_not_mem_pyStrInt i)
  simp only [List.cons_append, List.nil_append] at h
  rw [h]
  simpa using pyIntOfStr_pyStrInt i

/-! ### `button_handler` dispatch lemmas -/

theorem button_handler_page_eq (ud : UserData) (p : Int) :
    button_handler ud (encode_page p) =
      ({ ud with page := p },
        match send_results_page ud.search_results p with
        | none => RouterResponse.silent
        | some v => RouterResponse.resultsPage v) := by
  unfold button_handler
  rw [show encode_page p = 'p' :: 'a' :: 'g' :: 'e' :: '_' :: pyStrInt p from rfl]
  rw [if_pos (by exact of_decide_eq_true rfl)]
  rw [show ('p' :: 'a' :: 'g' :: 'e' :: '_' :: pyStrInt p) = encode_page p from rfl]
  rw [decode_encode_page]

theorem button_handler_dl_eq (ud : UserData) (R : Nat)
    (h : R < ud.search_results.length) :
    button_handler ud (encode_dl (R : Int)) =
      (ud, RouterResponse.startDownload (ud.search_results.get ⟨R, h⟩)) := by
  have hcond : ¬((R : Int) < 0 ∨ (ud.search_results.length : Int) ≤ (R : Int)) := by
    push_neg; constructor <;> omega
  simp only [button_handler,
    show pyStartswith ['p', 'a', 'g', 'e', '_'] (encode_dl (R : Int)) = false from rfl,
    show pyStartswith ['d', 'l', '_'] (encode_dl (R : Int)) = true from rfl,
    Bool.false_eq_true, if_false, if_true, decode_encode_dl, dif_neg hcond]
  simp

end MusicBot

/-- C10: `clean_filename` returns a string containing none of the characters
`\ / * ? : " < > |`, keeps every other character with its multiplicity, and
preserves the original order (the output is a sublist of the input); in
particular `/` never survives, so the temp-file name built from it stays a
single path component under `/tmp`. -/
theorem C10_clean_filename_sound (s : List Char) :
    (∀ c ∈ MusicBot.clean_filename s, MusicBot.bannedChar c = false)
    ∧ (MusicBot.clean_filename s).Sublist s
    ∧ (∀ c, MusicBot.bannedChar c = false →
        (MusicBot.clean_filename s).count c = s.count c)
    ∧ '/' ∉ MusicBot.clean_filename s := by
  refine ⟨?_, ?_, ?_, ?_⟩
  · intro c hc
    have := List.of_mem_filter hc
    simpa using this
  · exact List.filter_sublist s
  · intro c hc
    exact MusicBot.count_filter_eq _ c (by simp [hc]) s
  · intro hmem
    have := List.of_mem_filter hmem
    simp [MusicBot.bannedChar] at this

/-- Witness for C10 at a concrete input. -/
theorem C10_clean_filename_sound_witness :
    (∀ c ∈ MusicBot.clean_filename ['a', '/', 'b'], MusicBot.bannedChar c = false)
    ∧ (MusicBot.clean_filename ['a', '/', 'b']).Sublist ['a', '/', 'b']
    ∧ (∀ c, MusicBot.bannedChar c = false →
        (MusicBot.clean_filename ['a', '/', 'b']).count c = (['a', '/', 'b'] : List Char).count c)
    ∧ '/' ∉ MusicBot.clean_filename ['a', '/', 'b'] :=
  C10_clean_filename_sound ['a', '/', 'b']

/-- C6 (code bug evaluation): the code renders a 59-second duration as
`"59"` — `lstrip("0:")` strips the character set `{0, :}`, eating the whole
`"0:00:"` prefix of `"0:00:59"` — while the docstring and the spec call for
the `mm:ss` form; an hour-long duration and the absent/zero marker behave as
documented. -/
theorem C6_format_duration_bug :
    MusicBot.format_duration (some 59) = "59"
    ∧ MusicBot.format_duration (some 125) = "2:05"
    ∧ MusicBot.format_duration (some 3605) = "1:00:05"
    ∧ MusicBot.format_duration none = "??:??"
    ∧ MusicBot.format_duration (some 0) = "??:??" := by
  refine ⟨?_, ?_, ?_, rfl, rfl⟩ <;> rfl

/-- C7: encoding a download request for absolute rank R (0-based) and
decoding the callback data yields exactly R, and the handler resolves it to
the track at position R of the stored result order, whatever the current
page. -/
theorem C7_dl_roundtrip (results : List MusicBot.Track) (page : Int) (R : Nat)
    (h : R < results.length) :
    MusicBot.decode_cb_index (MusicBot.encode_dl (R : Int)) = (R : Int)
    ∧ (MusicBot.button_handler ⟨results, page⟩ (MusicBot.encode_dl (R : Int))).2
        = MusicBot.RouterResponse.startDownload (results.get ⟨R, h⟩) := by
  refine ⟨MusicBot.decode_encode_dl (R : Int), ?_⟩
  rw [MusicBot.button_handler_dl_eq ⟨results, page⟩ R h]

/-- Witness for C7: rank 2 on a 20-track session viewed from page 1. -/
theorem C7_dl_roundtrip_witness :
    MusicBot.decode_cb_index (MusicBot.encode_dl ((2 : Nat) : Int)) = ((2 : Nat) : Int)
    ∧ (MusicBot.button_handler ⟨MusicBot.tracks20, 1⟩
          (MusicBot.encode_dl ((2 : Nat) : Int))).2
        = MusicBot.RouterResponse.startDownload
            (MusicBot.tracks20.get ⟨2, by decide⟩) :=
  C7_dl_roundtrip MusicBot.tracks20 1 2 (by decide)

/-- C2 counterexample: a `page_5` request against a 20-track session
(page count 2) is not rejected: the handler stores page 5. -/
theorem C2_counterexample :
    (MusicBot.button_handler ⟨MusicBot.tracks20, 0⟩ (MusicBot.encode_page 5)).1.page = 5
    ∧ MusicBot.pageCount_displayed MusicBot.tracks20.length = 2 := by
  refine ⟨?_, by decide⟩
  rw [MusicBot.button_handler_page_eq]

/-- C2 amended: a page-navigation request is never rejected — the handler
stores the decoded target page unconditionally, in or out of range. -/
theorem C2_amended_page_stored_unconditionally (ud : MusicBot.UserData) (target : Int) :
    (MusicBot.button_handler ud (MusicBot.encode_page target)).1.page = target := by
  rw [MusicBot.button_handler_page_eq]

/-- Witness for the amended C2 at a concrete out-of-range target. -/
theorem C2_amended_witness :
    (MusicBot.button_handler ⟨MusicBot.tracks20, 0⟩ (MusicBot.encode_page 7)).1.page = 7 :=
  C2_amended_page_stored_unconditionally ⟨MusicBot.tracks20, 0⟩ 7

/-- C3 counterexample: after the accepted navigation `page_4` on a
non-empty 20-track session, `currentPage * pageSize < len(results)` fails
(40 ≥ 20). -/
theorem C3_counterexample :
    ((MusicBot.button_handler ⟨MusicBot.tracks20, 0⟩
        (MusicBot.encode_page 4)).1.search_results ≠ [])
    ∧ ¬((MusicBot.button_handler ⟨MusicBot.tracks20, 0⟩
          (MusicBot.encode_page 4)).1.page * (MusicBot.RESULTS_PER_PAGE : Int)
        < ((MusicBot.button_handler ⟨MusicBot.tracks20, 0⟩
            (MusicBot.encode_page 4)).1.search_results.length : Int)) := by
  rw [MusicBot.button_handler_page_eq]
  exact ⟨by decide, by decide⟩

/-- C3 amended: the invariant `currentPage * pageSize < len(results)` holds
after a successful non-empty search, and a page-navigation request (stored
unvalidated) preserves it exactly when the target itself satisfies it. -/
theorem C3_amended_invariant (ud : MusicBot.UserData)
    (tracks : List MusicBot.Track) (target : Int) :
    (tracks ≠ [] →
      (MusicBot.search_command ud tracks).page * (MusicBot.RESULTS_PER_PAGE : Int)
        < ((MusicBot.search_command ud tracks).search_results.length : Int))
    ∧ (target * (MusicBot.RESULTS_PER_PAGE : Int) < (ud.search_results.length : Int) →
      (MusicBot.button_handler ud (MusicBot.encode_page target)).1.page
          * (MusicBot.RESULTS_PER_PAGE : Int)
        < ((MusicBot.button_handler ud
            (MusicBot.encode_page target)).1.search_results.length : Int)) := by
  constructor
  · intro ht
    unfold MusicBot.search_command
    rw [if_neg (by simp [List.isEmpty_iff, ht])]
    have : 0 < tracks.length := List.length_pos.mpr ht
    simp
    omega
  · intro htar
    rw [MusicBot.button_handler_page_eq]
    simpa using htar

/-- Witness for the amended C3. -/
theorem C3_amended_invariant_witness :
    (([MusicBot.sampleTrack] : List MusicBot.Track) ≠ [] →
      (MusicBot.search_command ⟨MusicBot.tracks20, 3⟩ [MusicBot.sampleTrack]).page
          * (MusicBot.RESULTS_PER_PAGE : Int)
        < ((MusicBot.search_command ⟨MusicBot.tracks20, 3⟩
            [MusicBot.sampleTrack]).search_results.length : Int))
    ∧ ((1 : Int) * (MusicBot.RESULTS_PER_PAGE : Int)
          < (((⟨MusicBot.tracks20, 3⟩ : MusicBot.UserData)).search_results.length : Int) →
      (MusicBot.button_handler ⟨MusicBot.tracks20, 3⟩ (MusicBot.encode_page 1)).1.page
          * (MusicBot.RESULTS_PER_PAGE : Int)
        < ((MusicBot.button_handler ⟨MusicBot.tracks20, 3⟩
            (MusicBot.encode_page 1)).1.search_results.length : Int)) :=
  C3_amended_invariant ⟨MusicBot.tracks20, 3⟩ [MusicBot.sampleTrack] 1

/-- C5: a successful search (non-empty result list) replaces the stored
session with exactly the new results at page 0, discarding the prior
result set and page state. -/
theorem C5_search_replaces_session (ud : MusicBot.UserData)
    (tracks : List MusicBot.Track) (h : tracks ≠ []) :
    MusicBot.search_command ud tracks
      = { search_results := tracks, page := 0 } := by
  unfold MusicBot.search_command
  rw [if_neg (by simp [List.isEmpty_iff, h])]

/-- Witness for C5: a one-track search wipes a 20-track page-3 session. -/
theorem C5_search_replaces_session_witness :
    MusicBot.search_command ⟨MusicBot.tracks20, 3⟩ [MusicBot.sampleTrack]
      = { search_results := [MusicBot.sampleTrack], page := 0 } :=
  C5_search_replaces_session ⟨MusicBot.tracks20, 3⟩ [MusicBot.sampleTrack] (by decide)

/-- C4 counterexample: an engine transport/parse failure (the exception the
`except` block catches) produces the same value as a no-result search — the
empty list — so no distinct `CatalogUnavailable` outcome exists. -/
theorem C4_counterexample :
    MusicBot.search_youtube MusicBot.ExtractResult.raised
      = MusicBot.search_youtube (MusicBot.ExtractResult.ok [])
    ∧ MusicBot.search_youtube MusicBot.ExtractResult.raised = [] :=
  ⟨rfl, rfl⟩

/-- C4 amended: the search never throws — a no-result search returns the
empty sequence, and an engine transport/parse failure is caught, logged,
and also returns the empty sequence, indistinguishable from no results. -/
theorem C4_amended_failure_returns_empty :
    MusicBot.search_youtube (MusicBot.ExtractResult.ok []) = []
    ∧ MusicBot.search_youtube MusicBot.ExtractResult.noEntries = []
    ∧ MusicBot.search_youtube MusicBot.ExtractResult.raised = [] :=
  ⟨rfl, rfl, rfl⟩

/-- C9 counterexample: a page-navigation callback from a user with no
stored session produces no user-visible message at all — `send_results_page`
returns before sending anything — refuting that such requests get
user-visible guidance. -/
theorem C9_counterexample :
    (MusicBot.button_handler ⟨[], 0⟩ (MusicBot.encode_page 1)).2
      = MusicBot.RouterResponse.silent := by
  rw [MusicBot.button_handler_page_eq]
  rfl

/-- C9 amended: with no stored session, a download callback yields the
"track not found" message and a navigate callback is silently ignored
(no message); in either case — indeed for every callback datum — the
download pipeline is never entered. -/
theorem C9_amended_no_session (pg : Int) (r : Nat) (data : List Char) :
    (MusicBot.button_handler ⟨[], pg⟩ (MusicBot.encode_dl (r : Int))).2
      = MusicBot.RouterResponse.trackNotFound
    ∧ (MusicBot.button_handler ⟨[], pg⟩ (MusicBot.encode_page (r : Int))).2
      = MusicBot.RouterResponse.silent
    ∧ (∀ t, (MusicBot.button_handler ⟨[], pg⟩ data).2
        ≠ MusicBot.RouterResponse.startDownload t) := by
  refine ⟨?_, ?_, ?_⟩
  · simp only [MusicBot.button_handler,
      show MusicBot.pyStartswith ['p', 'a', 'g', 'e', '_']
        (MusicBot.encode_dl (r : Int)) = false from rfl,
      show MusicBot.pyStartswith ['d', 'l', '_']
        (MusicBot.encode_dl (r : Int)) = true from rfl,
      Bool.false_eq_true, if_false, if_true, MusicBot.decode_encode_dl]
    rw [dif_pos (Or.inr (by simp))]
  · rw [MusicBot.button_handler_page_eq]
    rfl
  · intro t
    unfold MusicBot.button_handler
    split
    · simp [MusicBot.send_results_page]
    · split
      · have hc : MusicBot.decode_cb_index data < 0
            ∨ (((⟨[], pg⟩ : MusicBot.UserData).search_results.length : Int)
                ≤ MusicBot.decode_cb_index data) := by
          rcases lt_or_le (MusicBot.decode_cb_index data) 0 with h | h
          · exact Or.inl h
          · exact Or.inr (by simpa using h)
        rw [dif_pos hc]
        simp
      · simp

/-- C8: for a non-empty result set and a valid page index, the rendered
page has a "previous" affordance exactly when the page is positive and a
"next" affordance exactly when a later page exists. -/
theorem C8_nav_affordances (tracks : List MusicBot.Track) (page : Nat)
    (hne : tracks ≠ [])
    (hpage : page < MusicBot.pageCount_displayed tracks.length) :
    ∃ v : MusicBot.PageView,
      MusicBot.send_results_page tracks (page : Int) = some v
      ∧ v.hasPrev = decide (0 < page)
      ∧ v.hasNext = decide (page < MusicBot.pageCount_displayed tracks.length - 1) := by
  have hne2 : tracks.isEmpty = false := by
    cases tracks with
    | nil => exact absurd rfl hne
    | cons a l => rfl
  have hlen : 0 < tracks.length := List.length_pos.mpr hne
  simp only [MusicBot.send_results_page, hne2, Bool.false_eq_true, if_false]
  refine ⟨_, rfl, ?_, ?_⟩
  · rw [decide_eq_decide]
    exact Int.natCast_pos
  · rw [decide_eq_decide]
    unfold MusicBot.pageCount_displayed MusicBot.RESULTS_PER_PAGE at *
    omega

/-- Witness for C8: page 1 of a 20-track result set. -/
theorem C8_nav_affordances_witness :
    ∃ v : MusicBot.PageView,
      MusicBot.send_results_page MusicBot.tracks20 ((1 : Nat) : Int) = some v
      ∧ v.hasPrev = decide (0 < (1 : Nat))
      ∧ v.hasNext
          = decide ((1 : Nat) < MusicBot.pageCount_displayed MusicBot.tracks20.length - 1) :=
  C8_nav_affordances MusicBot.tracks20 1 (by decide) (by decide)

/-- C1 counterexample: a job whose fetch succeeds but whose delivery to the
transport fails terminates with the temp artifact still existing —
`os.remove` is only reached when `reply_audio` returns normally. -/
theorem C1_counterexample :
    (MusicBot.button_handler_download [] MusicBot.EngineResult.created
        "/tmp/t_00000000.mp3" false).2 = MusicBot.DlStatus.deliveryFailed
    ∧ MusicBot.FS.existsFile
        (MusicBot.button_handler_download [] MusicBot.EngineResult.created
          "/tmp/t_00000000.mp3" false).1 "/tmp/t_00000000.mp3" = true := by
  exact ⟨rfl, rfl⟩

/-- C1 amended: with a fresh temp path, the temp artifact is gone after a
delivered job and after a fetch failure, but a job that fails while handing
the artifact to the transport leaves the temp file behind. -/
theorem C1_amended_cleanup (fs : MusicBot.FS) (eng : MusicBot.EngineResult)
    (p : String) (ok : Bool) (hfresh : p ∉ fs) :
    ((MusicBot.button_handler_download fs eng p ok).2 = MusicBot.DlStatus.delivered →
      MusicBot.FS.existsFile (MusicBot.button_handler_download fs eng p ok).1 p = false)
    ∧ ((MusicBot.button_handler_download fs eng p ok).2 = MusicBot.DlStatus.fetchFailed →
      MusicBot.FS.existsFile (MusicBot.button_handler_download fs eng p ok).1 p = false)
    ∧ ((MusicBot.button_handler_download fs eng p ok).2 = MusicBot.DlStatus.deliveryFailed →
      MusicBot.FS.existsFile (MusicBot.button_handler_download fs eng p ok).1 p = true) := by
  cases eng with
  | created =>
    cases ok with
    | true =>
      refine ⟨fun _ => ?_, fun hs => ?_, fun hs => ?_⟩
      · simp [MusicBot.button_handler_download, MusicBot.download_track_as_mp3,
          MusicBot.FS.existsFile, List.erase_cons_head, hfresh]
      · simp [MusicBot.button_handler_download, MusicBot.download_track_as_mp3,
          MusicBot.FS.existsFile] at hs
      · simp [MusicBot.button_handler_download, MusicBot.download_track_as_mp3,
          MusicBot.FS.existsFile] at hs
    | false =>
      refine ⟨fun hs => ?_, fun hs => ?_, fun _ => ?_⟩
      · simp [MusicBot.button_handler_download, MusicBot.download_track_as_mp3,
          MusicBot.FS.existsFile] at hs
      · simp [MusicBot.button_handler_download, MusicBot.download_track_as_mp3,
          MusicBot.FS.existsFile] at hs
      · simp [MusicBot.button_handler_download, MusicBot.download_track_as_mp3,
          MusicBot.FS.existsFile]
  | noFile =>
    refine ⟨fun hs => ?_, fun _ => ?_, fun hs => ?_⟩
    · simp [MusicBot.button_handler_download, MusicBot.download_track_as_mp3] at hs
    · simp [MusicBot.button_handler_download, MusicBot.download_track_as_mp3,
        MusicBot.FS.existsFile, hfresh]
    · simp [MusicBot.button_handler_download, MusicBot.download_track_as_mp3] at hs
  | raised =>
    refine ⟨fun hs => ?_, fun _ => ?_, fun hs => ?_⟩
    · simp [MusicBot.button_handler_download, MusicBot.download_track_as_mp3] at hs
    · simp [MusicBot.button_handler_download, MusicBot.download_track_as_mp3,
        MusicBot.FS.existsFile, hfresh]
    · simp [MusicBot.button_handler_download, MusicBot.download_track_as_mp3] at hs

/-- Witness for the amended C1: a delivered job on an initially empty
filesystem leaves no file. -/
theorem C1_amended_cleanup_witness :
    ((MusicBot.button_handler_download [] MusicBot.EngineResult.created
        "/tmp/t_00000000.mp3" true).2 = MusicBot.DlStatus.delivered →
      MusicBot.FS.existsFile (MusicBot.button_handler_download []
        MusicBot.EngineResult.created "/tmp/t_00000000.mp3" true).1
        "/tmp/t_00000000.mp3" = false)
    ∧ ((MusicBot.button_handler_download [] MusicBot.EngineResult.created
        "/tmp/t_00000000.mp3" true).2 = MusicBot.DlStatus.fetchFailed →
      MusicBot.FS.existsFile (MusicBot.button_handler_download []
        MusicBot.EngineResult.created "/tmp/t_00000000.mp3" true).1
        "/tmp/t_00000000.mp3" = false)
    ∧ ((MusicBot.button_handler_download [] MusicBot.EngineResult.created
        "/tmp/t_00000000.mp3" true).2 = MusicBot.DlStatus.deliveryFailed →
      MusicBot.FS.existsFile (MusicBot.button_handler_download []
        MusicBot.EngineResult.created "/tmp/t_00000000.mp3" true).1
        "/tmp/t_00000000.mp3" = true) :=
  C1_amended_cleanup [] MusicBot.EngineResult.created "/tmp/t_00000000.mp3" true
    (by decide)

/-- Witness for the amended C9 at concrete inputs. -/
theorem C9_amended_no_session_witness :
    (MusicBot.button_handler ⟨[], 2⟩ (MusicBot.encode_dl ((3 : Nat) : Int))).2
      = MusicBot.RouterResponse.trackNotFound
    ∧ (MusicBot.button_handler ⟨[], 2⟩ (MusicBot.encode_page ((3 : Nat) : Int))).2
      = MusicBot.RouterResponse.silent
    ∧ (∀ t, (MusicBot.button_handler ⟨[], 2⟩ ['x', 'y']).2
        ≠ MusicBot.RouterResponse.startDownload t) :=
  C9_amended_no_session 2 3 ['x', 'y']
